import Mathlib

/-!
A shallow embedding of `src/packages/trpc/router/items.ts` (the Refeed item
router): the relational data model it queries, the `getUnreadItems` pipeline
for every view type, and the search procedures, together with theorems that
check the specification's claims against it.

Modelling conventions.  Prisma string ids (cuids) are used by the code only as
a totally ordered pagination key, so they are modelled as `Nat`.  Timestamps
(JS `Date` values) are epoch numbers modelled as `Nat`; the value
`thirtyDaysAgo` computed at the top of the handler is passed in as the
parameter `now30`.  A Prisma `findMany` against a consistent snapshot is
modelled as filter / order / cursor-position / skip / take over a `Store`
value, and the nested `include`s are recovered by lookups into the same
snapshot.  The TRPC procedure can in principle throw, so `getUnreadItems`
returns `Except String UnreadResponse`; the handler body itself contains no
`throw`.
-/

namespace Refeed

/-- Sort options of the `getUnreadItems` input schema (`z.enum([...])`). -/
inductive SortKind
  | Latest
  | Oldest
  | ReadabilityAsc
  | ReadabilityDesc
  | ContentLengthAsc
  | ContentLengthDesc
deriving DecidableEq

/-- View types of the `getUnreadItems` input schema (`z.enum([...])`). -/
inductive ViewType
  | all
  | one
  | recentlyread
  | bookmarks
  | multiple
  | discover
  | newsletters
deriving DecidableEq

/-- Prisma sort direction (`Prisma.SortOrder`). -/
inductive SortDir
  | asc
  | desc
deriving DecidableEq

/-- Plan tiers of the `searchMultipleItems` input schema. -/
inductive Plan
  | free
  | pro
deriving DecidableEq

/-- An item row: belongs to one feed, has title, body content, creation
timestamp, newsletter flag, and a totally ordered id (the pagination key). -/
structure Item where
  id : Nat
  feed_id : Nat
  title : String
  website_content : Option String
  created_at : Nat
  from_newsletter : Bool
deriving DecidableEq

/-- A feed row (`feed` select in the shared query: `title`, `logo_url`). -/
structure Feed where
  id : Nat
  title : String
  logo_url : Option String
deriving DecidableEq

/-- A user-feed subscription row (the `users` relation of a feed; the shared
query selects `date_added` and `pagination_start_timestamp`). -/
structure Subscription where
  user_id : Nat
  feed_id : Nat
  date_added : Nat
  pagination_start_timestamp : Nat
deriving DecidableEq

/-- A bookmark-folder link of a `user_items` row (`bookmark_folders` relation,
filtered by `user_id` in the bookmarks view; `folder` is the folder name). -/
structure BookmarkFolderLink where
  user_id : Nat
  folder : String
deriving DecidableEq

/-- A per-user item state row (`user_items` relation: `note`, `marked_read`,
`in_read_later`, `marked_read_time`, `bookmark_folders`). -/
structure UserItem where
  user_id : Nat
  item_id : Nat
  note : Option String
  marked_read : Bool
  in_read_later : Bool
  marked_read_time : Option Nat
  bookmark_folders : List BookmarkFolderLink
deriving DecidableEq

/-- A consistent snapshot of the relational store. -/
structure Store where
  items : List Item
  feeds : List Feed
  subscriptions : List Subscription
  user_items : List UserItem
deriving DecidableEq

/-- The feed a given item belongs to (`item.feed`). -/
def feedOf (s : Store) (it : Item) : Option Feed :=
  s.feeds.find? (fun f => f.id == it.feed_id)

/-- The requesting user's subscription rows for an item's feed
(`item.feed.users` with `where: { user_id: ctx.user.id }`). -/
def subsOf (s : Store) (uid : Nat) (it : Item) : List Subscription :=
  s.subscriptions.filter (fun sub => sub.user_id == uid && sub.feed_id == it.feed_id)

/-- All `user_items` rows of an item (the `user_items` include carries no user
filter; the `where` clauses scope them separately). -/
def userItemsOf (s : Store) (it : Item) : List UserItem :=
  s.user_items.filter (fun r => r.item_id == it.id)

/-- Lower-case a character list (the model of Postgres `mode: "insensitive"`
case folding). -/
def lowerChars (l : List Char) : List Char :=
  l.map Char.toLower

/-- Whether the first character list is an initial segment of the second. -/
def startsWithChars : List Char → List Char → Bool
  | [], _ => true
  | _ :: _, [] => false
  | a :: as, b :: bs => a == b && startsWithChars as bs

/-- Whether the needle occurs contiguously inside the haystack. -/
def hasSubstringChars (needle : List Char) : List Char → Bool
  | [] => needle.isEmpty
  | c :: rest => startsWithChars needle (c :: rest) || hasSubstringChars needle rest

/-- Case-insensitive substring test: the model of Prisma
`{ contains: needle, mode: "insensitive" }` on a non-null string field. -/
def containsCI (hay needle : String) : Bool :=
  hasSubstringChars (lowerChars needle.data) (lowerChars hay.data)

/-- Prisma `contains` with a possibly-undefined query on a non-null field: an
undefined query imposes no constraint. -/
def titleContainsCI (query : Option String) (t : String) : Bool :=
  match query with
  | none => true
  | some q => containsCI t q

/-- Prisma `contains` with a possibly-undefined query on a nullable field: an
undefined query imposes no constraint, and a null field never matches a
defined query. -/
def fieldContainsCI (query : Option String) (field : Option String) : Bool :=
  match query with
  | none => true
  | some q =>
    match field with
    | some c => containsCI c q
    | none => false

/-- The `orderBy` of the shared query (`items.ts` lines 54-61): id descending
for `Latest`, ascending for `Oldest`, no ordering for the remaining sorts —
except that the `recentlyread` view is always fetched id-descending. -/
def sharedOrderBy (t : ViewType) (sk : SortKind) : Option SortDir :=
  if t ≠ ViewType.recentlyread then
    if sk = SortKind.Latest then some SortDir.desc
    else if sk = SortKind.Oldest then some SortDir.asc
    else none
  else some SortDir.desc

/-- Order a fetched list by the requested `orderBy`; `none` keeps snapshot
order (the store's default order). -/
def orderItems (ob : Option SortDir) (l : List Item) : List Item :=
  match ob with
  | none => l
  | some SortDir.asc => l.insertionSort (fun a b => a.id ≤ b.id)
  | some SortDir.desc => l.insertionSort (fun a b => b.id ≤ a.id)

/-- Prisma cursor positioning: start the page at the row whose id equals the
cursor (the row itself is then dropped by `skip: 1`). -/
def positionAtCursor (cursor : Option Nat) (l : List Item) : List Item :=
  match cursor with
  | none => l
  | some c => l.dropWhile (fun it => it.id != c)

/-- The model of `ctx.prisma.item.findMany` with the shared query's
`take` / `skip` / `cursor` / `orderBy` over a snapshot. -/
def findMany (w : Item → Bool) (ob : Option SortDir) (cursor : Option Nat)
    (skipN takeN : Nat) (s : Store) : List Item :=
  (((positionAtCursor cursor (orderItems ob (s.items.filter w))).drop skipN).take takeN)

/-- The `skip` of the shared query: `input.cursor === undefined ? 0 : 1`. -/
def sharedSkip (cursor : Option Nat) : Nat :=
  if cursor = none then 0 else 1

/-- The `where` clause of the bookmarks branch (`items.ts` lines 107-127):
some state row is saved-for-later or linked to one of this user's bookmark
folders, and every state row of the item belongs to this user. -/
def bookmarksWhere (s : Store) (uid : Nat) (it : Item) : Bool :=
  (userItemsOf s it).any
      (fun r => r.in_read_later || r.bookmark_folders.any (fun bf => bf.user_id == uid))
    && (userItemsOf s it).all (fun r => r.user_id == uid)

/-- The `where` clause of the recentlyread branch (`items.ts` lines 142-153):
some state row is marked read with read time inside the 30-day window, and
every state row of the item belongs to this user. -/
def recentlyreadWhere (s : Store) (uid : Nat) (now30 : Nat) (it : Item) : Bool :=
  (userItemsOf s it).any
      (fun r =>
        r.marked_read &&
          (match r.marked_read_time with
            | some t => decide (now30 ≤ t)
            | none => false))
    && (userItemsOf s it).all (fun r => r.user_id == uid)

/-- The feed recency guard (`feed: { items: { every: { created_at: { gte:
thirtyDaysAgo } } } }`): every item of the item's feed is inside the window. -/
def feedRecencyGuard (s : Store) (now30 : Nat) (it : Item) : Bool :=
  (s.items.filter (fun j => j.feed_id == it.feed_id)).all
    (fun j => decide (now30 ≤ j.created_at))

/-- The subscription scope (`feed: { users: { some: { user_id: ctx.user.id
} } }`): the item's feed has a subscription row of the requesting user. -/
def subscribedB (s : Store) (uid fid : Nat) : Bool :=
  s.subscriptions.any (fun sub => sub.user_id == uid && sub.feed_id == fid)

/-- The unread scope (`user_items: { none: { AND: [{ marked_read: true },
{ user_id: ctx.user.id }] } }`). -/
def noReadStateFor (s : Store) (uid : Nat) (it : Item) : Bool :=
  !(userItemsOf s it).any (fun r => r.marked_read && r.user_id == uid)

/-- The `feed_id` constraint of the discover branch (`feed_id:
input.feed_id`): an absent `feed_id` imposes no constraint. -/
def discoverFeedFilter (fid : Option Nat) (it : Item) : Bool :=
  match fid with
  | some f => it.feed_id == f
  | none => true

/-- The `where` clause of the discover branch (`items.ts` lines 192-215). -/
def discoverWhere (s : Store) (uid : Nat) (now30 : Nat) (fid : Option Nat) (it : Item) : Bool :=
  discoverFeedFilter fid it && feedRecencyGuard s now30 it && noReadStateFor s uid it

/-- The `where` clause of the all branch (`items.ts` lines 237-265). -/
def allWhere (s : Store) (uid : Nat) (now30 : Nat) (it : Item) : Bool :=
  subscribedB s uid it.feed_id && feedRecencyGuard s now30 it && noReadStateFor s uid it

/-- The `feed_id` constraint of the one/multiple branch (`items.ts` lines
310-324): membership in the folder's resolved feed ids for `multiple`, the
requested feed for `one` (no constraint when it is absent), no constraint
otherwise. -/
def oneMultipleFeedFilter (t : ViewType) (fid : Option Nat) (folderIds : List Nat)
    (it : Item) : Bool :=
  match t with
  | ViewType.multiple => folderIds.contains it.feed_id
  | ViewType.one =>
    match fid with
    | some f => it.feed_id == f
    | none => true
  | _ => true

/-- The `where` clause of the one/multiple branch (`items.ts` lines 295-337). -/
def oneMultipleWhere (s : Store) (uid : Nat) (now30 : Nat) (t : ViewType)
    (fid : Option Nat) (folderIds : List Nat) (it : Item) : Bool :=
  subscribedB s uid it.feed_id && feedRecencyGuard s now30 it
    && oneMultipleFeedFilter t fid folderIds it && noReadStateFor s uid it

/-- The `where` clause of the newsletters branch (`items.ts` line 367): only
the newsletter flag; the commented-out subscription and read-state scoping is
absent. -/
def newslettersWhere (it : Item) : Bool :=
  it.from_newsletter

/-- The post-fetch subscription-window filter of the all branch (`items.ts`
lines 270-275): keep an item iff the user's subscription row for its feed has
`pagination_start_timestamp <= item.created_at`; with no such row the JS
comparison against `undefined` is false and the item is dropped. -/
def itemsAfterDatePred (s : Store) (uid : Nat) (it : Item) : Bool :=
  match (subsOf s uid it).head? with
  | some sub => decide (sub.pagination_start_timestamp ≤ it.created_at)
  | none => false

/-- The flat item produced by projection: id, title, content, feed metadata,
per-user state (singleton `user_items[0]`), bookmark folder names, creation
and read time. -/
structure FlatItem where
  id : Nat
  title : String
  website_content : Option String
  feed_title : Option String
  feed_logo : Option String
  marked_read : Bool
  in_read_later : Bool
  note : Option String
  bookmark_folders : List String
  created_at : Nat
  marked_read_time : Option Nat
deriving DecidableEq

/-- Modelled from the spec: `transformItems`
(`packages/trpc/router/utils/transformItems`) is imported by the router but is
not under `src/`.  Spec section 4.4: flatten a joined record (item + feed
projection + at most one `UserItemState`) into a flat item, treating the
per-user relation as a singleton (its first element), with default
unread/unsaved values when no state row exists.  This is the projection of a
single record. -/
def transformOne (s : Store) (it : Item) : FlatItem :=
  { id := it.id
    title := it.title
    website_content := it.website_content
    feed_title := (feedOf s it).map Feed.title
    feed_logo := (feedOf s it).bind Feed.logo_url
    marked_read := ((userItemsOf s it).head?.map UserItem.marked_read).getD false
    in_read_later := ((userItemsOf s it).head?.map UserItem.in_read_later).getD false
    note := (userItemsOf s it).head?.bind UserItem.note
    bookmark_folders :=
      ((userItemsOf s it).head?.map
        (fun r => r.bookmark_folders.map BookmarkFolderLink.folder)).getD []
    created_at := it.created_at
    marked_read_time := (userItemsOf s it).head?.bind UserItem.marked_read_time }

/-- Modelled from the spec: `transformItems` over a whole page (see
`transformOne`); it projects each fetched record in order. -/
def transformItems (s : Store) (items : List Item) : List FlatItem :=
  items.map (transformOne s)

/-- Modelled from the spec: `getNextPrismaCursor`
(`packages/trpc/lib/getNextPrismaCursor`) is imported by the router but is not
under `src/`.  Spec section 4.2: `nextCursor` = id of the last item in the
page when the page is exactly `amount` items long, absent when the page is
shorter. -/
def getNextPrismaCursor {α : Type} (getId : α → Nat) (items : List α) (amount : Nat) :
    Option Nat :=
  if items.length = amount then items.getLast?.map getId else none

/-- The duplicate-group fingerprint.  The spec (section 4.6) leaves the exact
grouping key unspecified ("e.g., normalized title/source signature"); it is
modelled as the case-folded title. -/
def dedupKey (fi : FlatItem) : String :=
  String.mk (lowerChars fi.title.data)

/-- Keep the first occurrence of each fingerprint, given the set of
fingerprints already seen. -/
def dedupBy (k : FlatItem → String) : List FlatItem → List String → List FlatItem
  | [], _ => []
  | x :: xs, seen =>
    if seen.contains (k x) then dedupBy k xs seen
    else x :: dedupBy k xs (k x :: seen)

/-- Modelled from the spec: `removeDuplicates`
(`packages/trpc/router/utils/removeDuplicates`) is imported by the router but
is not under `src/`.  Spec section 4.6: produce a page with at most one
representative per duplicate group, preferring the earliest-encountered item
in fetch order; the user id, store handle and cross-feed flag scope the
secondary lookup, which does not change which in-page representative is
kept. -/
def removeDuplicates (items : List FlatItem) (uid : Nat) (s : Store) (crossFeed : Bool) :
    List FlatItem :=
  dedupBy dedupKey items []

/-- The input of `getUnreadItems` after schema validation: `folder`,
`feed_id` and `cursor` are optional for every view type. -/
structure GetUnreadInput where
  amount : Nat
  sort : SortKind
  type : ViewType
  folder : Option String
  feed_id : Option Nat
  cursor : Option Nat
deriving DecidableEq

/-- The response of `getUnreadItems`: the projected page and the continuation
cursor. -/
structure UnreadResponse where
  transformedItems : List FlatItem
  nextCursor : Option Nat
deriving DecidableEq

/-- The read-time sort key used by the recentlyread in-memory sort:
`Number(item.user_items[0]?.marked_read_time)`, with a null time coerced
to 0. -/
def readTimeOf (s : Store) (it : Item) : Nat :=
  (((userItemsOf s it).head?.bind UserItem.marked_read_time)).getD 0

/-- The bookmarks branch (`items.ts` lines 105-139): fetch, take the cursor
from the raw page, project; `removeDuplicates` is not called. -/
def bookmarksPipeline (s : Store) (uid : Nat) (input : GetUnreadInput) : UnreadResponse :=
  let items := findMany (bookmarksWhere s uid) (sharedOrderBy input.type input.sort)
    input.cursor (sharedSkip input.cursor) input.amount s
  let nextCursor := getNextPrismaCursor Item.id items input.amount
  let transformedItems := transformItems s items
  { transformedItems := transformedItems, nextCursor := nextCursor }

/-- The recentlyread branch (`items.ts` lines 140-188): fetch (always
id-descending), re-sort the page in memory by read time (descending for
`Latest`, ascending for `Oldest`), project, take the cursor from the
projected (already re-sorted) page, then suppress duplicates. -/
def recentlyreadPipeline (s : Store) (uid : Nat) (now30 : Nat) (input : GetUnreadInput) :
    UnreadResponse :=
  let items0 := findMany (recentlyreadWhere s uid now30) (sharedOrderBy input.type input.sort)
    input.cursor (sharedSkip input.cursor) input.amount s
  let items1 :=
    if input.sort = SortKind.Latest then
      items0.insertionSort (fun a b => readTimeOf s b ≤ readTimeOf s a)
    else items0
  let items :=
    if input.sort = SortKind.Oldest then
      items1.insertionSort (fun a b => readTimeOf s a ≤ readTimeOf s b)
    else items1
  let transformedItems := transformItems s items
  let nextCursor := getNextPrismaCursor FlatItem.id transformedItems input.amount
  { transformedItems := removeDuplicates transformedItems uid s false, nextCursor := nextCursor }

/-- The discover branch (`items.ts` lines 190-233): fetch, project, take the
cursor from the projected page, then suppress duplicates. -/
def discoverPipeline (s : Store) (uid : Nat) (now30 : Nat) (input : GetUnreadInput) :
    UnreadResponse :=
  let items := findMany (discoverWhere s uid now30 input.feed_id)
    (sharedOrderBy input.type input.sort) input.cursor (sharedSkip input.cursor) input.amount s
  let transformedItems := transformItems s items
  let nextCursor := getNextPrismaCursor FlatItem.id transformedItems input.amount
  { transformedItems := removeDuplicates transformedItems uid s false, nextCursor := nextCursor }

/-- The all branch (`items.ts` lines 235-291): fetch, apply the
subscription-window filter, project, take the cursor from the filtered
projected page, then suppress duplicates. -/
def allPipeline (s : Store) (uid : Nat) (now30 : Nat) (input : GetUnreadInput) :
    UnreadResponse :=
  let items := findMany (allWhere s uid now30) (sharedOrderBy input.type input.sort)
    input.cursor (sharedSkip input.cursor) input.amount s
  let itemsAfterDate := items.filter (itemsAfterDatePred s uid)
  let transformedItems := transformItems s itemsAfterDate
  let nextCursor := getNextPrismaCursor FlatItem.id transformedItems input.amount
  { transformedItems := removeDuplicates transformedItems uid s true, nextCursor := nextCursor }

/-- The one/multiple branch (`items.ts` lines 293-363): fetch with the
per-type feed constraint, project, take the cursor from the projected page,
then suppress duplicates; the window filter here is commented out in the
source. -/
def oneMultiplePipeline (s : Store) (uid : Nat) (now30 : Nat) (t : ViewType)
    (folderIds : List Nat) (input : GetUnreadInput) : UnreadResponse :=
  let items := findMany (oneMultipleWhere s uid now30 t input.feed_id folderIds)
    (sharedOrderBy input.type input.sort) input.cursor (sharedSkip input.cursor) input.amount s
  let transformedItems := transformItems s items
  let nextCursor := getNextPrismaCursor FlatItem.id transformedItems input.amount
  { transformedItems := removeDuplicates transformedItems uid s true, nextCursor := nextCursor }

/-- The newsletters branch (`items.ts` lines 364-420): fetch by the
newsletter flag only, project, take the cursor from the projected page; the
`removeDuplicates` call is commented out in the source. -/
def newslettersPipeline (s : Store) (input : GetUnreadInput) : UnreadResponse :=
  let items := findMany newslettersWhere (sharedOrderBy input.type input.sort)
    input.cursor (sharedSkip input.cursor) input.amount s
  let transformedItems := transformItems s items
  let nextCursor := getNextPrismaCursor FlatItem.id transformedItems input.amount
  { transformedItems := transformedItems, nextCursor := nextCursor }

/-- The `getUnreadItems` procedure: dispatch on the view type and run the
branch pipeline; `getFolderFeedIds` is the external folder resolver, invoked
(with the possibly-absent folder, as `input.folder!` passes it through) only
for the `multiple` view.  No branch throws. -/
def getUnreadItems (s : Store) (uid : Nat) (now30 : Nat)
    (getFolderFeedIds : Option String → Nat → List Nat) (input : GetUnreadInput) :
    Except String UnreadResponse :=
  match input.type with
  | ViewType.bookmarks => Except.ok (bookmarksPipeline s uid input)
  | ViewType.recentlyread => Except.ok (recentlyreadPipeline s uid now30 input)
  | ViewType.discover => Except.ok (discoverPipeline s uid now30 input)
  | ViewType.all => Except.ok (allPipeline s uid now30 input)
  | ViewType.one => Except.ok (oneMultiplePipeline s uid now30 ViewType.one [] input)
  | ViewType.multiple =>
    Except.ok
      (oneMultiplePipeline s uid now30 ViewType.multiple (getFolderFeedIds input.folder uid) input)
  | ViewType.newsletters => Except.ok (newslettersPipeline s input)

/-- The response of a `getUnreadItems` call, with an empty page standing in
for the (unreachable) error case. -/
def unreadResult (s : Store) (uid : Nat) (now30 : Nat)
    (getFolderFeedIds : Option String → Nat → List Nat) (input : GetUnreadInput) :
    UnreadResponse :=
  match getUnreadItems s uid now30 getFolderFeedIds input with
  | Except.ok r => r
  | Except.error _ => { transformedItems := [], nextCursor := none }

/-- A search result row: the item with its `website_content` converted to
markdown and the owning feed's title injected. -/
structure SearchItem where
  id : Nat
  feed_id : Nat
  title : String
  website_content : String
  created_at : Nat
  from_newsletter : Bool
  feed_title : Option String
deriving DecidableEq

/-- The `where` clause of `searchMultipleItems` (`items.ts` lines 445-468):
case-insensitive title substring match, a plan-gated case-insensitive
`website_content` substring match (absent for the free plan), and scoping to
the user's subscribed feeds. -/
def searchWhere (s : Store) (uid : Nat) (query : Option String) (plan : Plan)
    (it : Item) : Bool :=
  titleContainsCI query it.title
    && (match plan with
        | Plan.free => true
        | Plan.pro => fieldContainsCI query it.website_content)
    && subscribedB s uid it.feed_id

/-- The `searchMultipleItems` procedure (`items.ts` lines 435-491): filter,
cap at `take`, then convert each `website_content` to markdown (`md` models
`NodeHtmlMarkdown.translate`, applied to `website_content ?? ""`) and inject
the feed title. -/
def searchMultipleItems (md : String → String) (s : Store) (uid : Nat)
    (query : Option String) (plan : Plan) (takeN : Nat) : List SearchItem :=
  ((s.items.filter (searchWhere s uid query plan)).take takeN).map
    (fun it =>
      { id := it.id
        feed_id := it.feed_id
        title := it.title
        website_content := md (it.website_content.getD "")
        created_at := it.created_at
        from_newsletter := it.from_newsletter
        feed_title := (feedOf s it).map Feed.title })

/-- Two item rows that agree on every stored field except the body content
`website_content`. -/
def ItemDiffersOnlyInContent (a b : Item) : Prop :=
  a.id = b.id ∧ a.feed_id = b.feed_id ∧ a.title = b.title ∧ a.created_at = b.created_at
    ∧ a.from_newsletter = b.from_newsletter

/-- Two store snapshots whose items differ only in `website_content` and that
agree elsewhere. -/
def StoreDiffersOnlyInContent (s1 s2 : Store) : Prop :=
  s1.feeds = s2.feeds ∧ s1.subscriptions = s2.subscriptions
    ∧ s1.user_items = s2.user_items
    ∧ List.Forall₂ ItemDiffersOnlyInContent s1.items s2.items

/-- A folder resolver that maps everything to no feeds (used by concrete
instances whose view never consults it). -/
def noFeeds : Option String → Nat → List Nat :=
  fun _ _ => []

/-- A markdown converter stub for concrete search instances. -/
def mdId : String → String :=
  fun x => x

/-- A snapshot with two read items: D (id 2, read at 30) and E (id 1, read at
10), both of feed 1 for user 1. -/
def sRR : Store :=
  { items := [{ id := 2, feed_id := 1, title := "d", website_content := none,
                created_at := 0, from_newsletter := false },
              { id := 1, feed_id := 1, title := "e", website_content := none,
                created_at := 0, from_newsletter := false }]
    feeds := [{ id := 1, title := "fd", logo_url := none }]
    subscriptions := []
    user_items := [{ user_id := 1, item_id := 2, note := none, marked_read := true,
                     in_read_later := true, marked_read_time := some 30, bookmark_folders := [] },
                   { user_id := 1, item_id := 1, note := none, marked_read := true,
                     in_read_later := true, marked_read_time := some 10, bookmark_folders := [] }] }

/-- The recentlyread request of the spec scenario: amount 2, sort Oldest, no
cursor. -/
def inRR : GetUnreadInput :=
  { amount := 2, sort := SortKind.Oldest, type := ViewType.recentlyread,
    folder := none, feed_id := none, cursor := none }

/-- A snapshot with two bookmarked items of identical content (ids 2 and 1)
and two newsletter items of identical content (ids 4 and 3). -/
def sDup : Store :=
  { items := [{ id := 2, feed_id := 1, title := "dup", website_content := none,
                created_at := 0, from_newsletter := false },
              { id := 1, feed_id := 1, title := "dup", website_content := none,
                created_at := 0, from_newsletter := false },
              { id := 4, feed_id := 1, title := "nl", website_content := none,
                created_at := 0, from_newsletter := true },
              { id := 3, feed_id := 1, title := "nl", website_content := none,
                created_at := 0, from_newsletter := true }]
    feeds := [{ id := 1, title := "fd", logo_url := none }]
    subscriptions := []
    user_items := [{ user_id := 1, item_id := 2, note := none, marked_read := false,
                     in_read_later := true, marked_read_time := none, bookmark_folders := [] },
                   { user_id := 1, item_id := 1, note := none, marked_read := false,
                     in_read_later := true, marked_read_time := none, bookmark_folders := [] }] }

/-- A bookmarks request over `sDup`. -/
def inBmDup : GetUnreadInput :=
  { amount := 2, sort := SortKind.Latest, type := ViewType.bookmarks,
    folder := none, feed_id := none, cursor := none }

/-- A newsletters request over `sDup`. -/
def inNewsDup : GetUnreadInput :=
  { amount := 2, sort := SortKind.Latest, type := ViewType.newsletters,
    folder := none, feed_id := none, cursor := none }

/-- A snapshot where user 1's subscription to feed 1 has
`pagination_start_timestamp` 20, item A (id 2) was created at 10 (before the
boundary) and item B (id 1) at 30 (after it). -/
def sC2 : Store :=
  { items := [{ id := 2, feed_id := 1, title := "a", website_content := none,
                created_at := 10, from_newsletter := false },
              { id := 1, feed_id := 1, title := "b", website_content := none,
                created_at := 30, from_newsletter := false }]
    feeds := [{ id := 1, title := "fd", logo_url := none }]
    subscriptions := [{ user_id := 1, feed_id := 1, date_added := 0,
                        pagination_start_timestamp := 20 }]
    user_items := [] }

/-- The all-view request over `sC2`: amount 1, sort Latest, no cursor. -/
def inC2 : GetUnreadInput :=
  { amount := 1, sort := SortKind.Latest, type := ViewType.all,
    folder := none, feed_id := none, cursor := none }

/-- Item B of `sC2`: the qualifying item the pagination never returns. -/
def itemB : Item :=
  { id := 1, feed_id := 1, title := "b", website_content := none,
    created_at := 30, from_newsletter := false }

/-- A snapshot with one unread subscribed item (id 1, feed 1, user 1). -/
def sC5 : Store :=
  { items := [{ id := 1, feed_id := 1, title := "x", website_content := none,
                created_at := 5, from_newsletter := false }]
    feeds := [{ id := 1, title := "fd", logo_url := none }]
    subscriptions := [{ user_id := 1, feed_id := 1, date_added := 0,
                        pagination_start_timestamp := 0 }]
    user_items := [] }

/-- A `type = one` request with `feed_id` absent. -/
def inC5 : GetUnreadInput :=
  { amount := 5, sort := SortKind.Latest, type := ViewType.one,
    folder := none, feed_id := none, cursor := none }

/-- A snapshot where item 1 is saved-for-later by user 1 but also has a state
row of user 2. -/
def sC10 : Store :=
  { items := [{ id := 1, feed_id := 1, title := "x", website_content := none,
                created_at := 0, from_newsletter := false }]
    feeds := [{ id := 1, title := "fd", logo_url := none }]
    subscriptions := []
    user_items := [{ user_id := 1, item_id := 1, note := none, marked_read := false,
                     in_read_later := true, marked_read_time := none, bookmark_folders := [] },
                   { user_id := 2, item_id := 1, note := none, marked_read := false,
                     in_read_later := false, marked_read_time := none, bookmark_folders := [] }] }

/-- A bookmarks request over `sC10`. -/
def inC10 : GetUnreadInput :=
  { amount := 5, sort := SortKind.Latest, type := ViewType.bookmarks,
    folder := none, feed_id := none, cursor := none }

/-- The user-2 state row of `sC10`. -/
def rowOther : UserItem :=
  { user_id := 2, item_id := 1, note := none, marked_read := false,
    in_read_later := false, marked_read_time := none, bookmark_folders := [] }

/-- A snapshot with one subscribed item titled "Apple" whose body is
"body one". -/
def sS1 : Store :=
  { items := [{ id := 1, feed_id := 1, title := "Apple", website_content := some "body one",
                created_at := 0, from_newsletter := false }]
    feeds := [{ id := 1, title := "fd", logo_url := none }]
    subscriptions := [{ user_id := 1, feed_id := 1, date_added := 0,
                        pagination_start_timestamp := 0 }]
    user_items := [] }

/-- The same snapshot as `sS1` except that the item's body is "body two". -/
def sS2 : Store :=
  { items := [{ id := 1, feed_id := 1, title := "Apple", website_content := some "body two",
                created_at := 0, from_newsletter := false }]
    feeds := [{ id := 1, title := "fd", logo_url := none }]
    subscriptions := [{ user_id := 1, feed_id := 1, date_added := 0,
                        pagination_start_timestamp := 0 }]
    user_items := [] }

/-- An item of a fetched page is a stored item satisfying the `where`
clause. -/
theorem mem_of_mem_findMany {w : Item → Bool} {ob : Option SortDir} {cur : Option Nat}
    {skipN takeN : Nat} {s : Store} {it : Item} (h : it ∈ findMany w ob cur skipN takeN s) :
    it ∈ s.items ∧ w it = true := by
  unfold findMany at h
  have h1 := (List.take_sublist _ _).mem h
  have h2 := (List.drop_sublist _ _).mem h1
  have h3 : it ∈ orderItems ob (s.items.filter w) := by
    cases cur with
    | none => exact h2
    | some c => exact (List.dropWhile_sublist _).mem h2
  have h4 : it ∈ s.items.filter w := by
    cases ob with
    | none => exact h3
    | some d =>
      cases d with
      | asc => exact (List.perm_insertionSort _ _).mem_iff.mp h3
      | desc => exact (List.perm_insertionSort _ _).mem_iff.mp h3
  exact List.mem_filter.mp h4

/-- Duplicate suppression only drops items: the result is a sublist of the
input. -/
theorem sublist_dedupBy (k : FlatItem → String) :
    ∀ (l : List FlatItem) (seen : List String), List.Sublist (dedupBy k l seen) l := by
  intro l
  induction l with
  | nil => intro seen; exact List.Sublist.refl _
  | cons x xs ih =>
    intro seen
    unfold dedupBy
    by_cases h : seen.contains (k x) = true
    · rw [if_pos h]
      exact (ih seen).cons x
    · rw [if_neg h]
      exact (ih (k x :: seen)).cons₂ x

/-- An item of a suppressed page is an item of the input page. -/
theorem mem_of_mem_removeDuplicates {l : List FlatItem} {uid : Nat} {s : Store}
    {cf : Bool} {x : FlatItem} (h : x ∈ removeDuplicates l uid s cf) : x ∈ l :=
  (sublist_dedupBy dedupKey l []).mem h

/-- Keys of a suppressed page avoid the seen set and are pairwise distinct. -/
theorem dedupBy_keys (k : FlatItem → String) :
    ∀ (l : List FlatItem) (seen : List String),
      (∀ x ∈ dedupBy k l seen, k x ∉ seen) ∧ ((dedupBy k l seen).map k).Nodup := by
  intro l
  induction l with
  | nil => intro seen; exact ⟨fun x hx => absurd hx (List.not_mem_nil x), List.nodup_nil⟩
  | cons a l ih =>
    intro seen
    unfold dedupBy
    by_cases h : seen.contains (k a) = true
    · rw [if_pos h]
      exact ih seen
    · rw [if_neg h]
      have hka : k a ∉ seen := fun hm => h (List.elem_iff.mpr hm)
      constructor
      · intro x hx
        rcases List.mem_cons.mp hx with hxa | hxl
        · rw [hxa]; exact hka
        · intro hxs
          exact ((ih (k a :: seen)).1 x hxl) (List.mem_cons_of_mem _ hxs)
      · rw [List.map_cons]
        refine List.Nodup.cons ?_ (ih (k a :: seen)).2
        intro hmem
        rcases List.mem_map.mp hmem with ⟨y, hy, hky⟩
        exact ((ih (k a :: seen)).1 y hy) (by rw [hky]; exact List.mem_cons_self _ _)

/-- Suppression is the identity on a page whose keys are already pairwise
distinct and disjoint from the seen set. -/
theorem dedupBy_eq_self (k : FlatItem → String) :
    ∀ (l : List FlatItem) (seen : List String), (l.map k).Nodup →
      (∀ x ∈ l, k x ∉ seen) → dedupBy k l seen = l := by
  intro l
  induction l with
  | nil => intro seen _ _; rfl
  | cons a l ih =>
    intro seen hnd hout
    unfold dedupBy
    have hka : seen.contains (k a) ≠ true := by
      intro hc
      exact hout a (List.mem_cons_self a l) (List.elem_iff.mp hc)
    rw [if_neg hka]
    rw [List.map_cons] at hnd
    refine congrArg (a :: ·) (ih (k a :: seen) hnd.of_cons ?_)
    intro x hx hmem
    rcases List.mem_cons.mp hmem with hxa | hxs
    · exact (List.nodup_cons.mp hnd).1 (hxa ▸ List.mem_map_of_mem k hx)
    · exact hout x (List.mem_cons_of_mem a hx) hxs

/-- Suppressing an already-suppressed page changes nothing. -/
theorem removeDuplicates_idem (l : List FlatItem) (u : Nat) (s : Store) (b : Bool)
    (u' : Nat) (s' : Store) (b' : Bool) :
    removeDuplicates (removeDuplicates l u s b) u' s' b' = removeDuplicates l u s b := by
  unfold removeDuplicates
  exact dedupBy_eq_self dedupKey (dedupBy dedupKey l []) []
    (dedupBy_keys dedupKey l []).2 (fun x _ => List.not_mem_nil _)

/-- Filtering two pointwise-related lists with predicates that agree on
related pairs yields pointwise-related lists. -/
theorem forall₂_filter_congr {R : Item → Item → Prop} {p q : Item → Bool}
    (hpq : ∀ a b, R a b → p a = q b) :
    ∀ {l1 l2 : List Item}, List.Forall₂ R l1 l2 →
      List.Forall₂ R (l1.filter p) (l2.filter q) := by
  intro l1 l2 h
  induction h with
  | nil => exact List.Forall₂.nil
  | @cons a b t1 t2 hab htl ih =>
    rw [List.filter_cons, List.filter_cons, ← hpq a b hab]
    by_cases hpa : p a = true
    · rw [if_pos hpa, if_pos hpa]
      exact List.Forall₂.cons hab ih
    · rw [if_neg hpa, if_neg hpa]
      exact ih

/-- Mapping two pointwise-related lists with functions that agree on related
pairs yields equal lists. -/
theorem forall₂_map_congr {R : Item → Item → Prop} {β : Type} {f g : Item → β}
    (hfg : ∀ a b, R a b → f a = g b) :
    ∀ {l1 l2 : List Item}, List.Forall₂ R l1 l2 → l1.map f = l2.map g := by
  intro l1 l2 h
  induction h with
  | nil => rfl
  | @cons a b t1 t2 hab _ ih =>
    rw [List.map_cons, List.map_cons, hfg a b hab, ih]

/-- C1: on the snapshot `sRR` (items D = id 2 read at 30, E = id 1 read at
10) the recentlyread request with sort Oldest and amount 2 returns the page
[E, D] with `nextCursor` 2 — the id of the last item of the read-time
re-sorted page — although the last item of the id-descending fetch order is
E (id 1).  The code computes the cursor after the in-memory re-sort, so the
cursor anchors the display order, contradicting the claim (and the code's own
comment that the cursor be taken before the sort). -/
theorem c1_recentlyread_cursor_anchors_resorted_order :
    (unreadResult sRR 1 0 noFeeds inRR).nextCursor = some 2
      ∧ (unreadResult sRR 1 0 noFeeds inRR).transformedItems.map FlatItem.id = [1, 2]
      ∧ ((findMany (recentlyreadWhere sRR 1 0)
            (sharedOrderBy ViewType.recentlyread SortKind.Oldest) none 0 2 sRR).map
          Item.id).getLast? = some 1 := by
  exact ⟨by decide, by decide, by decide⟩

/-- C2: on the snapshot `sC2`, the all-view request with amount 1 and no
cursor returns an empty page with no `nextCursor` (signalling exhaustion),
although item B (id 1) satisfies the all-view `where` clause and the
subscription-window predicate and has never been returned: the bounded fetch
returns only item A (id 2), which the post-fetch window filter then drops, so
iteration stops and B is skipped. -/
theorem c2_all_view_pagination_skips_qualifying_item :
    (unreadResult sC2 1 0 noFeeds inC2).transformedItems = []
      ∧ (unreadResult sC2 1 0 noFeeds inC2).nextCursor = none
      ∧ itemB ∈ sC2.items
      ∧ allWhere sC2 1 0 itemB = true
      ∧ itemsAfterDatePred sC2 1 itemB = true := by
  exact ⟨by decide, by decide, by decide, by decide, by decide⟩

/-- C3 (counterexample): on the snapshot `sDup` the bookmarks page contains
two items of identical content (ids 2 and 1), so the returned bookmarks page
is not the duplicate-suppressed page: the bookmarks branch never calls
`removeDuplicates`. -/
theorem c3_counterexample_bookmarks_page_unsuppressed :
    (unreadResult sDup 1 0 noFeeds inBmDup).transformedItems.map FlatItem.id = [2, 1]
      ∧ removeDuplicates (unreadResult sDup 1 0 noFeeds inBmDup).transformedItems 1 sDup false
          ≠ (unreadResult sDup 1 0 noFeeds inBmDup).transformedItems := by
  exact ⟨by decide, by decide⟩

/-- C3 (amended): the duplicate suppressor runs on the primary read path for
the all, one, multiple, discover and recentlyread views — each returned page
is its own suppression, i.e. already duplicate-suppressed — while the
bookmarks and newsletters pages are returned unsuppressed (concretely, over
`sDup` both contain duplicate-content items that suppression would drop). -/
theorem c3_amended_dedup_views :
    (∀ (s : Store) (uid now30 : Nat) (g : Option String → Nat → List Nat)
        (amount : Nat) (sk : SortKind) (folder : Option String) (fid cur : Option Nat)
        (uid' : Nat) (s' : Store) (cf : Bool),
        removeDuplicates
            (unreadResult s uid now30 g ⟨amount, sk, ViewType.all, folder, fid, cur⟩).transformedItems
            uid' s' cf
          = (unreadResult s uid now30 g ⟨amount, sk, ViewType.all, folder, fid, cur⟩).transformedItems)
      ∧ (∀ (s : Store) (uid now30 : Nat) (g : Option String → Nat → List Nat)
          (amount : Nat) (sk : SortKind) (folder : Option String) (fid cur : Option Nat)
          (uid' : Nat) (s' : Store) (cf : Bool),
          removeDuplicates
              (unreadResult s uid now30 g ⟨amount, sk, ViewType.one, folder, fid, cur⟩).transformedItems
              uid' s' cf
            = (unreadResult s uid now30 g ⟨amount, sk, ViewType.one, folder, fid, cur⟩).transformedItems)
      ∧ (∀ (s : Store) (uid now30 : Nat) (g : Option String → Nat → List Nat)
          (amount : Nat) (sk : SortKind) (folder : Option String) (fid cur : Option Nat)
          (uid' : Nat) (s' : Store) (cf : Bool),
          removeDuplicates
              (unreadResult s uid now30 g ⟨amount, sk, ViewType.multiple, folder, fid, cur⟩).transformedItems
              uid' s' cf
            = (unreadResult s uid now30 g ⟨amount, sk, ViewType.multiple, folder, fid, cur⟩).transformedItems)
      ∧ (∀ (s : Store) (uid now30 : Nat) (g : Option String → Nat → List Nat)
          (amount : Nat) (sk : SortKind) (folder : Option String) (fid cur : Option Nat)
          (uid' : Nat) (s' : Store) (cf : Bool),
          removeDuplicates
              (unreadResult s uid now30 g ⟨amount, sk, ViewType.discover, folder, fid, cur⟩).transformedItems
              uid' s' cf
            = (unreadResult s uid now30 g ⟨amount, sk, ViewType.discover, folder, fid, cur⟩).transformedItems)
      ∧ (∀ (s : Store) (uid now30 : Nat) (g : Option String → Nat → List Nat)
          (amount : Nat) (sk : SortKind) (folder : Option String) (fid cur : Option Nat)
          (uid' : Nat) (s' : Store) (cf : Bool),
          removeDuplicates
              (unreadResult s uid now30 g ⟨amount, sk, ViewType.recentlyread, folder, fid, cur⟩).transformedItems
              uid' s' cf
            = (unreadResult s uid now30 g ⟨amount, sk, ViewType.recentlyread, folder, fid, cur⟩).transformedItems)
      ∧ removeDuplicates (unreadResult sDup 1 0 noFeeds inBmDup).transformedItems 1 sDup false
          ≠ (unreadResult sDup 1 0 noFeeds inBmDup).transformedItems
      ∧ removeDuplicates (unreadResult sDup 1 0 noFeeds inNewsDup).transformedItems 1 sDup false
          ≠ (unreadResult sDup 1 0 noFeeds inNewsDup).transformedItems := by
  refine ⟨?_, ?_, ?_, ?_, ?_, by decide, by decide⟩
  all_goals
    intro s uid now30 g amount sk folder fid cur uid' s' cf
    simp only [unreadResult, getUnreadItems, allPipeline, oneMultiplePipeline,
      discoverPipeline, recentlyreadPipeline]
    exact removeDuplicates_idem _ _ _ _ _ _ _

/-- C5 (counterexample): a `type = one` request with `feed_id` absent does
not fail with a ValidationError: over `sC5` it runs the store query with no
feed constraint and returns the stored item (id 1). -/
theorem c5_counterexample_missing_feed_id_runs_query :
    (getUnreadItems sC5 1 0 noFeeds inC5).isOk = true
      ∧ (unreadResult sC5 1 0 noFeeds inC5).transformedItems.map FlatItem.id = [1] := by
  exact ⟨by decide, by decide⟩

/-- C5 (amended): `getUnreadItems` never fails for any input — there is no
boundary validation of the per-view parameters — and an absent `feed_id`
imposes no feed constraint on the store query of the one and discover
views (for `multiple`, the absent folder is passed on to the external
folder resolver). -/
theorem c5_amended_no_boundary_validation :
    (∀ (s : Store) (uid now30 : Nat) (g : Option String → Nat → List Nat)
        (input : GetUnreadInput), (getUnreadItems s uid now30 g input).isOk = true)
      ∧ (∀ (folderIds : List Nat) (it : Item),
          oneMultipleFeedFilter ViewType.one none folderIds it = true)
      ∧ (∀ it : Item, discoverFeedFilter none it = true) := by
  refine ⟨?_, fun folderIds it => rfl, fun it => rfl⟩
  intro s uid now30 g input
  obtain ⟨a, sk, t, f, i, c⟩ := input
  cases t <;> rfl

/-- C4: recentlyread store fetches are ordered id-descending for every
requested sort; the returned page is sorted by read timestamp, descending
when sort is Latest and ascending when sort is Oldest; and on `sRR` the page
fetched id-descending as [D (read at 30), E (read at 10)] with sort Oldest is
returned as [E, D]. -/
theorem c4_recentlyread_fetch_order_and_resort :
    (∀ sk, sharedOrderBy ViewType.recentlyread sk = some SortDir.desc)
      ∧ (∀ (s : Store) (uid now30 : Nat) (g : Option String → Nat → List Nat)
          (amount : Nat) (folder : Option String) (fid cur : Option Nat),
          ((unreadResult s uid now30 g
              ⟨amount, SortKind.Latest, ViewType.recentlyread, folder, fid, cur⟩).transformedItems).Pairwise
            (fun a b => b.marked_read_time.getD 0 ≤ a.marked_read_time.getD 0))
      ∧ (∀ (s : Store) (uid now30 : Nat) (g : Option String → Nat → List Nat)
          (amount : Nat) (folder : Option String) (fid cur : Option Nat),
          ((unreadResult s uid now30 g
              ⟨amount, SortKind.Oldest, ViewType.recentlyread, folder, fid, cur⟩).transformedItems).Pairwise
            (fun a b => a.marked_read_time.getD 0 ≤ b.marked_read_time.getD 0))
      ∧ (unreadResult sRR 1 0 noFeeds inRR).transformedItems.map FlatItem.id = [1, 2] := by
  refine ⟨fun sk => rfl, ?_, ?_, by decide⟩
  · intro s uid now30 g amount folder fid cur
    have hpage : (unreadResult s uid now30 g
        ⟨amount, SortKind.Latest, ViewType.recentlyread, folder, fid, cur⟩).transformedItems
        = removeDuplicates
            (transformItems s
              ((findMany (recentlyreadWhere s uid now30)
                  (sharedOrderBy ViewType.recentlyread SortKind.Latest) cur (sharedSkip cur)
                  amount s).insertionSort (fun a b => readTimeOf s b ≤ readTimeOf s a)))
            uid s false := rfl
    rw [hpage]
    have hsorted : List.Sorted (fun a b : Item => readTimeOf s b ≤ readTimeOf s a)
        ((findMany (recentlyreadWhere s uid now30)
            (sharedOrderBy ViewType.recentlyread SortKind.Latest) cur (sharedSkip cur)
            amount s).insertionSort (fun a b => readTimeOf s b ≤ readTimeOf s a)) := by
      haveI : IsTotal Item (fun a b : Item => readTimeOf s b ≤ readTimeOf s a) :=
        ⟨fun a b => Nat.le_total _ _⟩
      haveI : IsTrans Item (fun a b : Item => readTimeOf s b ≤ readTimeOf s a) :=
        ⟨fun a b c h1 h2 => Nat.le_trans h2 h1⟩
      exact List.sorted_insertionSort _ _
    refine List.Pairwise.sublist (sublist_dedupBy dedupKey _ []) ?_
    rw [transformItems, List.pairwise_map]
    exact hsorted
  · intro s uid now30 g amount folder fid cur
    have hpage : (unreadResult s uid now30 g
        ⟨amount, SortKind.Oldest, ViewType.recentlyread, folder, fid, cur⟩).transformedItems
        = removeDuplicates
            (transformItems s
              ((findMany (recentlyreadWhere s uid now30)
                  (sharedOrderBy ViewType.recentlyread SortKind.Oldest) cur (sharedSkip cur)
                  amount s).insertionSort (fun a b => readTimeOf s a ≤ readTimeOf s b)))
            uid s false := rfl
    rw [hpage]
    have hsorted : List.Sorted (fun a b : Item => readTimeOf s a ≤ readTimeOf s b)
        ((findMany (recentlyreadWhere s uid now30)
            (sharedOrderBy ViewType.recentlyread SortKind.Oldest) cur (sharedSkip cur)
            amount s).insertionSort (fun a b => readTimeOf s a ≤ readTimeOf s b)) := by
      haveI : IsTotal Item (fun a b : Item => readTimeOf s a ≤ readTimeOf s b) :=
        ⟨fun a b => Nat.le_total _ _⟩
      haveI : IsTrans Item (fun a b : Item => readTimeOf s a ≤ readTimeOf s b) :=
        ⟨fun a b c h1 h2 => Nat.le_trans h1 h2⟩
      exact List.sorted_insertionSort _ _
    refine List.Pairwise.sublist (sublist_dedupBy dedupKey _ []) ?_
    rw [transformItems, List.pairwise_map]
    exact hsorted

/-- C6: every item of a returned all-view page corresponds to a stored item
(same id and creation time) that passes the subscription-window predicate
`pagination_start_timestamp <= created_at` for the requesting user's
subscription to its feed; failing items were dropped by the post-fetch
filter. -/
theorem c6_all_view_window_filter_holds :
    ∀ (s : Store) (uid now30 : Nat) (g : Option String → Nat → List Nat)
      (amount : Nat) (sk : SortKind) (folder : Option String) (fid cur : Option Nat),
      ((unreadResult s uid now30 g
          ⟨amount, sk, ViewType.all, folder, fid, cur⟩).transformedItems.all
        (fun fi => s.items.any
          (fun it => it.id == fi.id && it.created_at == fi.created_at
            && itemsAfterDatePred s uid it))) = true := by
  intro s uid now30 g amount sk folder fid cur
  rw [List.all_eq_true]
  intro fi hfi
  have hx : (unreadResult s uid now30 g
      ⟨amount, sk, ViewType.all, folder, fid, cur⟩).transformedItems
      = removeDuplicates
          (transformItems s
            ((findMany (allWhere s uid now30) (sharedOrderBy ViewType.all sk) cur
                (sharedSkip cur) amount s).filter (itemsAfterDatePred s uid)))
          uid s true := rfl
  rw [hx] at hfi
  have hfi2 := mem_of_mem_removeDuplicates hfi
  rw [transformItems] at hfi2
  obtain ⟨it, hit, rfl⟩ := List.mem_map.mp hfi2
  obtain ⟨hfetch, hpred⟩ := List.mem_filter.mp hit
  obtain ⟨hstore, _⟩ := mem_of_mem_findMany hfetch
  rw [List.any_eq_true]
  refine ⟨it, hstore, ?_⟩
  simp [transformOne, hpred]

/-- C7: every item of a returned bookmarks page has a state row of the
requesting user that is saved-for-later or linked to one of that user's
bookmark folders; no returned item rests on another user's state. -/
theorem c7_bookmarks_membership_basis :
    ∀ (s : Store) (uid now30 : Nat) (g : Option String → Nat → List Nat)
      (amount : Nat) (sk : SortKind) (folder : Option String) (fid cur : Option Nat),
      ((unreadResult s uid now30 g
          ⟨amount, sk, ViewType.bookmarks, folder, fid, cur⟩).transformedItems.all
        (fun fi => s.user_items.any
          (fun row => row.item_id == fi.id && row.user_id == uid
            && (row.in_read_later
              || row.bookmark_folders.any (fun bf => bf.user_id == uid))))) = true := by
  intro s uid now30 g amount sk folder fid cur
  rw [List.all_eq_true]
  intro fi hfi
  have hx : (unreadResult s uid now30 g
      ⟨amount, sk, ViewType.bookmarks, folder, fid, cur⟩).transformedItems
      = transformItems s (findMany (bookmarksWhere s uid)
          (sharedOrderBy ViewType.bookmarks sk) cur (sharedSkip cur) amount s) := rfl
  rw [hx, transformItems] at hfi
  obtain ⟨it, hit, rfl⟩ := List.mem_map.mp hfi
  obtain ⟨_, hw⟩ := mem_of_mem_findMany hit
  unfold bookmarksWhere at hw
  rw [Bool.and_eq_true] at hw
  obtain ⟨hsome, hall⟩ := hw
  rw [List.any_eq_true] at hsome
  obtain ⟨row, hrow, hcond⟩ := hsome
  rw [List.all_eq_true] at hall
  have huser := hall row hrow
  unfold userItemsOf at hrow
  obtain ⟨hrow_mem, hrow_item⟩ := List.mem_filter.mp hrow
  rw [List.any_eq_true]
  refine ⟨row, hrow_mem, ?_⟩
  simp only [transformOne]
  rw [Bool.and_eq_true, Bool.and_eq_true]
  exact ⟨⟨hrow_item, huser⟩, hcond⟩

/-- C9: every item returned by a pro-plan search with a defined query
matches the query case-insensitively in its title, and corresponds to a
stored item whose body content also matches the query: the title and content
filters are conjoined, so a content-only match is never returned. -/
theorem c9_pro_search_conjoins_title_and_content :
    ∀ (md : String → String) (s : Store) (uid : Nat) (q : String) (takeN : Nat),
      ((searchMultipleItems md s uid (some q) Plan.pro takeN).all
        (fun fi => containsCI fi.title q
          && s.items.any (fun it => it.id == fi.id
            && fieldContainsCI (some q) it.website_content))) = true := by
  intro md s uid q takeN
  rw [List.all_eq_true]
  intro fi hfi
  unfold searchMultipleItems at hfi
  obtain ⟨it, hit, rfl⟩ := List.mem_map.mp hfi
  have hit2 := (List.take_sublist _ _).mem hit
  obtain ⟨hmem, hw⟩ := List.mem_filter.mp hit2
  unfold searchWhere at hw
  rw [Bool.and_eq_true, Bool.and_eq_true] at hw
  obtain ⟨⟨htitle, hcontent⟩, _⟩ := hw
  rw [Bool.and_eq_true]
  constructor
  · exact htitle
  · rw [List.any_eq_true]
    refine ⟨it, hmem, ?_⟩
    have hcontent2 : fieldContainsCI (some q) it.website_content = true := hcontent
    simp [hcontent2]

/-- C10: in the bookmarks view, an item with any state row of a different
user is excluded from the returned page — the `every` clause quantifies over
all state rows of the item — even when the requesting user's own row
qualifies. -/
theorem c10_bookmarks_foreign_state_excludes :
    ∀ (s : Store) (uid now30 : Nat) (g : Option String → Nat → List Nat)
      (amount : Nat) (sk : SortKind) (folder : Option String) (fid cur : Option Nat)
      (row : UserItem), row ∈ s.user_items → ¬ row.user_id = uid →
      ((unreadResult s uid now30 g
          ⟨amount, sk, ViewType.bookmarks, folder, fid, cur⟩).transformedItems.all
        (fun fi => fi.id != row.item_id)) = true := by
  intro s uid now30 g amount sk folder fid cur row hrow hne
  rw [List.all_eq_true]
  intro fi hfi
  have hx : (unreadResult s uid now30 g
      ⟨amount, sk, ViewType.bookmarks, folder, fid, cur⟩).transformedItems
      = transformItems s (findMany (bookmarksWhere s uid)
          (sharedOrderBy ViewType.bookmarks sk) cur (sharedSkip cur) amount s) := rfl
  rw [hx, transformItems] at hfi
  obtain ⟨it, hit, rfl⟩ := List.mem_map.mp hfi
  obtain ⟨_, hw⟩ := mem_of_mem_findMany hit
  unfold bookmarksWhere at hw
  rw [Bool.and_eq_true] at hw
  obtain ⟨_, hall⟩ := hw
  rw [List.all_eq_true] at hall
  simp only [transformOne, bne_iff_ne, ne_eq, decide_eq_true_eq]
  intro heq
  apply hne
  have hrow_in : row ∈ userItemsOf s it := by
    unfold userItemsOf
    rw [List.mem_filter]
    exact ⟨hrow, by simp [heq]⟩
  exact beq_iff_eq.mp (hall row hrow_in)

/-- C10 (witness): on `sC10`, where user 1's own row saves item 1 for later
but user 2 also has a state row on item 1, no returned bookmarks item for
user 1 has id 1. -/
theorem c10_witness :
    ((unreadResult sC10 1 0 noFeeds
        ⟨5, SortKind.Latest, ViewType.bookmarks, none, none, none⟩).transformedItems.all
      (fun fi => fi.id != rowOther.item_id)) = true :=
  c10_bookmarks_foreign_state_excludes sC10 1 0 noFeeds 5 SortKind.Latest none none none
    rowOther (by decide) (by decide)

/-- C8: a free-plan search never consults item body content — two snapshots
whose items differ only in `website_content` produce the same matched item
ids — and the free-plan `where` predicate is invariant under replacing an
item's body content. -/
theorem c8_free_plan_search_content_independent :
    (∀ (md1 md2 : String → String) (s1 s2 : Store) (uid : Nat) (q : Option String)
        (takeN : Nat), StoreDiffersOnlyInContent s1 s2 →
        (searchMultipleItems md1 s1 uid q Plan.free takeN).map SearchItem.id
          = (searchMultipleItems md2 s2 uid q Plan.free takeN).map SearchItem.id)
      ∧ (∀ (s : Store) (uid : Nat) (q : Option String) (wc : Option String) (it : Item),
          searchWhere s uid q Plan.free { it with website_content := wc }
            = searchWhere s uid q Plan.free it) := by
  constructor
  · intro md1 md2 s1 s2 uid q takeN hdiff
    obtain ⟨hf, hs, hu, hitems⟩ := hdiff
    unfold searchMultipleItems
    rw [List.map_map, List.map_map]
    refine forall₂_map_congr ?_ (List.forall₂_take takeN (forall₂_filter_congr ?_ hitems))
    · intro a b hab
      exact hab.1
    · intro a b hab
      obtain ⟨hid, hfid, htitle, hc, hn⟩ := hab
      unfold searchWhere subscribedB
      rw [htitle, hfid, hs]
  · intro s uid q wc it
    rfl

/-- C8 (witness): over the two concrete snapshots `sS1` and `sS2`, which
differ only in the item's body content, the free-plan search for "app"
returns the same item ids. -/
theorem c8_witness :
    (searchMultipleItems mdId sS1 1 (some "app") Plan.free 5).map SearchItem.id
      = (searchMultipleItems mdId sS2 1 (some "app") Plan.free 5).map SearchItem.id :=
  c8_free_plan_search_content_independent.1 mdId mdId sS1 sS2 1 (some "app") 5
    ⟨rfl, rfl, rfl, List.Forall₂.cons ⟨rfl, rfl, rfl, rfl, rfl⟩ List.Forall₂.nil⟩


end Refeed
